import Mathlib

/-!
# Verification of the CAD core: winding normalizer and geometry compute pipeline

A shallow embedding of the solid-modeling core of the repository:

* the `Solid` mesh-authoring and winding-normalization routines of
  `src/lib/ui/LeftPanel.svelte` (`_computeSignedVolume`,
  `_isCoherentlyOrientedManifold`, `_fixTriangleWindingsByAdjacency`,
  the orientation step of `_manifoldize`, and `CADEdge`'s closed-loop
  detection), and
* the `GeometryComputer` class of `src/lib/geometry/GeometryComputer.ts`
  (`compute`, `computeBoolean`, `computeExtrude`, `computeRevolve`,
  `createEmptyGeometry`, `markDirtyWithDependents`) together with the
  geometry cache store of `cadStore` (`set`, `markDirty`).

Numeric values are embedded as rationals (the source uses JS doubles; every
input exercised here is exactly representable).  The native CSG kernel
(`manifoldEngine`) is external to the repository and is abstracted as an
environment of operation oracles, each returning success or failure, exactly
as the engine's `Result`-returning methods do; kernel handles are opaque and
modelled as natural numbers.
-/

namespace CADCore

/-! ## Triangle mesh authoring arrays

`Solid` keeps a flat vertex-coordinate list `_vertProperties` and a triangle
list `_triVerts`; a triangle is three vertex indices. -/

/-- A triangle: three indices into the vertex table. -/
abbrev Tri := Nat × Nat × Nat

/-- Swap a triangle's second and third vertex indices (the winding flip used
both by the adjacency repair and the outward-orientation step). -/
def flipTri (t : Tri) : Tri := (t.1, t.2.2, t.2.1)

/-- Number of vertices represented by a flat coordinate list
(`_vertProperties.length / 3`). -/
def numVertsOf (vp : List ℚ) : Nat := vp.length / 3

/-- The triple product `p0 · (p1 × p2)` of one triangle's vertices, expanded
exactly as in `_computeSignedVolume` (LeftPanel.svelte lines 1311-1318). -/
def triTerm (vp : List ℚ) (t : Tri) : ℚ :=
  let x0 := vp.getD (t.1 * 3) 0
  let y0 := vp.getD (t.1 * 3 + 1) 0
  let z0 := vp.getD (t.1 * 3 + 2) 0
  let x1 := vp.getD (t.2.1 * 3) 0
  let y1 := vp.getD (t.2.1 * 3 + 1) 0
  let z1 := vp.getD (t.2.1 * 3 + 2) 0
  let x2 := vp.getD (t.2.2 * 3) 0
  let y2 := vp.getD (t.2.2 * 3 + 1) 0
  let z2 := vp.getD (t.2.2 * 3 + 2) 0
  x0 * (y1 * z2 - z1 * y2) - y0 * (x1 * z2 - z1 * x2) + z0 * (x1 * y2 - y1 * x2)

/-- Six times the signed volume: the sum of the per-triangle triple products
(`vol6` in `_computeSignedVolume`). -/
def signedVol6 (vp : List ℚ) (tris : List Tri) : ℚ :=
  (tris.map (triTerm vp)).sum

/-- Mirror of `Solid._computeSignedVolume`: `Σ p0 · (p1 × p2) / 6` over all triangles. -/
def computeSignedVolume (vp : List ℚ) (tris : List Tri) : ℚ :=
  signedVol6 vp tris / 6

/-- The three directed edges of a triangle, in source order
`[(i0,i1), (i1,i2), (i2,i0)]`. -/
def triEdges (t : Tri) : List (Nat × Nat) :=
  [(t.1, t.2.1), (t.2.1, t.2.2), (t.2.2, t.1)]

/-- All directed edges of a triangle list, in iteration order. -/
def directedEdges (tris : List Tri) : List (Nat × Nat) :=
  tris.flatMap triEdges

/-- The unordered edge key: `a < b ? a*NV + b : b*NV + a` (the `ukey` closure
shared by `_isCoherentlyOrientedManifold` and
`_fixTriangleWindingsByAdjacency`; exact `BigInt` arithmetic becomes exact
`Nat` arithmetic). -/
def ukey (NV a b : Nat) : Nat :=
  if a < b then a * NV + b else b * NV + a

/-- Mirror of `Solid._isCoherentlyOrientedManifold`: false on an empty triangle list;
otherwise every undirected edge key must have exactly two directed uses and
the two uses must be mutual reverses (`e0.a === e1.b && e0.b === e1.a`).
The source groups uses in a `Map` keyed by `ukey` and checks every group;
checking, for every directed edge, the group of its key is the same test. -/
def isCoherentlyOrientedManifold (vp : List ℚ) (tris : List Tri) : Bool :=
  if tris.isEmpty then false
  else
    let NV := Nat.max 1 (numVertsOf vp)
    let edges := directedEdges tris
    edges.all fun e =>
      let grp := edges.filter fun e2 => ukey NV e2.1 e2.2 == ukey NV e.1 e.2
      match grp with
      | [e0, e1] => e0.1 == e1.2 && e0.2 == e1.1
      | _ => false

/-- One recorded directed use of an edge: the triangle index and the edge's
direction within that triangle (`{ tri, a, b }` in the source's `undirected`
map). -/
structure EdgeUse where
  tri : Nat
  a : Nat
  b : Nat
deriving DecidableEq, Repr

/-- All directed edge uses of a triangle list, in the source's push order
(triangle by triangle, each triangle's three edges in order). -/
def edgeUses (tris : List Tri) : List EdgeUse :=
  tris.enum.flatMap fun p => (triEdges p.2).map fun ab => ⟨p.1, ab.1, ab.2⟩

/-- Visiting an adjacency-map entry from triangle `t` across its directed
edge `(a, b)`: skip `t` itself and already-visited triangles; flip the
neighbor when its recorded direction equals (rather than reverses) `(a, b)`;
mark it visited and push it (LeftPanel.svelte lines 1424-1436). -/
def visitNeighbor (t a b : Nat) (acc : Array Tri × Array Bool × List Nat)
    (u : EdgeUse) : Array Tri × Array Bool × List Nat :=
  let (tris, visited, stack) := acc
  if u.tri == t || visited.getD u.tri false then (tris, visited, stack)
  else
    let nTri := tris.getD u.tri (0, 0, 0)
    let tris1 := if u.a == a && u.b == b then tris.setD u.tri (flipTri nTri) else tris
    (tris1, visited.setD u.tri true, u.tri :: stack)

/-- Processing one popped triangle `t`: walk its three current directed
edges; for each, look up the key's recorded uses, skip keys with fewer than
two uses, and visit every recorded neighbor. -/
def processTriangle (NV : Nat) (uses : List EdgeUse)
    (acc : Array Tri × Array Bool × List Nat) (t : Nat) :
    Array Tri × Array Bool × List Nat :=
  let tri := acc.1.getD t (0, 0, 0)
  (triEdges tri).foldl
    (fun acc2 ab =>
      let adj := uses.filter fun u => ukey NV u.a u.b == ukey NV ab.1 ab.2
      if adj.length < 2 then acc2
      else adj.foldl (visitNeighbor t ab.1 ab.2) acc2)
    acc

/-- The repair's inner `while (stack.length > 0)` loop.  The fuel argument is
a model artifact bounding the iteration count; every pushed triangle is
marked visited at push time and never re-pushed, so `2 * triCount + 1` fuel
is never exhausted on the inputs evaluated here. -/
def windingRepairLoop (NV : Nat) (uses : List EdgeUse) :
    Nat → Array Tri × Array Bool × List Nat → Array Tri × Array Bool
  | 0, acc => (acc.1, acc.2.1)
  | fuel + 1, acc =>
    match acc.2.2 with
    | [] => (acc.1, acc.2.1)
    | t :: rest => windingRepairLoop NV uses fuel (processTriangle NV uses (acc.1, acc.2.1, rest) t)

/-- Mirror of `Solid._fixTriangleWindingsByAdjacency`: return unchanged if the mesh is
already coherent (or empty); otherwise flood-fill triangle adjacency from
every not-yet-visited seed, flipping same-direction neighbors. -/
def fixTriangleWindingsByAdjacency (vp : List ℚ) (tris0 : List Tri) : List Tri :=
  if isCoherentlyOrientedManifold vp tris0 then tris0
  else
    let triCount := tris0.length
    if triCount == 0 then tris0
    else
      let NV := Nat.max 1 (numVertsOf vp)
      let uses := edgeUses tris0
      let final := (List.range triCount).foldl
        (fun (acc : Array Tri × Array Bool) seed =>
          if acc.2.getD seed false then acc
          else windingRepairLoop NV uses (2 * triCount + 1) (acc.1, acc.2.setD seed true, [seed]))
        (tris0.toArray, Array.mkArray triCount false)
      final.1.toList

/-- The triangle-list transformation performed by `Solid._manifoldize`
(lines 1257-1269): adjacency repair, then the outward-orientation step —
if the signed volume is negative, swap vertex indices 1 and 2 of every
triangle.  The subsequent kernel mesh construction is external (the native
CSG library) and does not change the triangle list. -/
def manifoldizeTris (vp : List ℚ) (tris : List Tri) : List Tri :=
  let fixed := fixTriangleWindingsByAdjacency vp tris
  if computeSignedVolume vp fixed < 0 then fixed.map flipTri else fixed

/-! ## CADEdge closed-loop detection -/

/-- The 1e-9 tolerance of `CADEdge`'s closed-loop check. -/
def edgeEps : ℚ := 1 / 1000000000

/-- The `closedLoop` flag computed in `CADEdge`'s constructor (LeftPanel
lines 953-961): for a polyline of at least two points, compare the first
and last point coordinate-wise with `Math.abs(Δ) < 1e-9`; otherwise the
flag keeps its `false` initializer. -/
def edgeClosedLoop (positions : List (ℚ × ℚ × ℚ)) : Bool :=
  if 2 ≤ positions.length then
    match positions.head?, positions.getLast? with
    | some first, some last =>
      decide (|first.1 - last.1| < edgeEps) &&
      decide (|first.2.1 - last.2.1| < edgeEps) &&
      decide (|first.2.2 - last.2.2| < edgeEps)
    | _, _ => false
  else false

/-- Squared Euclidean distance of two 3D points. -/
def dist3sq (p q : ℚ × ℚ × ℚ) : ℚ :=
  (p.1 - q.1) ^ 2 + (p.2.1 - q.2.1) ^ 2 + (p.2.2 - q.2.2) ^ 2

/-- The claim's reading of the closed-flag rule: first and last points
coincide within 1e-9 absolute (Euclidean) distance, stated on squared
distances to stay in ℚ.  Written from the claim's words, to be compared
with `edgeClosedLoop`. -/
def specEdgeClosedWithin (positions : List (ℚ × ℚ × ℚ)) : Bool :=
  decide (2 ≤ positions.length) &&
  (match positions.head?, positions.getLast? with
   | some first, some last => decide (dist3sq first last ≤ edgeEps ^ 2)
   | _, _ => false)

/-- The claim's wording of the coherence condition: every undirected edge
key has exactly two directed uses and those two uses are mutual reverses.
Written from the claim's words, to be compared with
`isCoherentlyOrientedManifold` (which also demands a nonempty mesh). -/
def specCoherentKeys (vp : List ℚ) (tris : List Tri) : Bool :=
  let NV := Nat.max 1 (numVertsOf vp)
  let edges := directedEdges tris
  edges.all fun e =>
    let grp := edges.filter fun e2 => ukey NV e2.1 e2.2 == ukey NV e.1 e.2
    grp.length == 2 &&
      match grp with
      | [e0, e1] => e0.1 == e1.2 && e0.2 == e1.1
      | _ => false


/-! ## Concrete meshes used as inputs below -/

/-- A combinatorial tetrahedron boundary (faces of the 4-vertex closed
surface), coherently wound. -/
def tetraTris : List Tri := [(1, 2, 3), (0, 3, 2), (0, 1, 3), (0, 2, 1)]

/-- Vertex coordinates of a proper (positive-volume) unit tetrahedron. -/
def tetraVP : List ℚ := [0, 0, 0, 1, 0, 0, 0, 1, 0, 0, 0, 1]

/-- Vertex coordinates placing all four tetrahedron vertices in the plane
`z = 0`: combinatorially still a closed 2-manifold, geometrically a
degenerate zero-volume shell. -/
def flatVP : List ℚ := [0, 0, 0, 1, 0, 0, 0, 1, 0, 1, 1, 0]

/-! ## Winding-flip algebra and the outward-orientation step (C2) -/

theorem triTerm_flip (vp : List ℚ) (t : Tri) : triTerm vp (flipTri t) = - triTerm vp t := by
  obtain ⟨i0, i1, i2⟩ := t
  simp only [flipTri, triTerm]
  ring

theorem signedVol6_flip (vp : List ℚ) (tris : List Tri) :
    signedVol6 vp (tris.map flipTri) = - signedVol6 vp tris := by
  induction tris with
  | nil => simp [signedVol6]
  | cons t ts ih =>
    simp only [signedVol6, List.map_cons, List.sum_cons] at ih ⊢
    rw [triTerm_flip, ih]
    ring

theorem computeSignedVolume_flip (vp : List ℚ) (tris : List Tri) :
    computeSignedVolume vp (tris.map flipTri) = - computeSignedVolume vp tris := by
  simp [computeSignedVolume, signedVol6_flip, neg_div]

/-- C2 (amended): the outward-orientation step of `_manifoldize` leaves the
triangle list with signed volume equal to the absolute value of the
repaired list's signed volume — hence nonnegative, and positive whenever
the repaired soup's signed volume is nonzero.  (A geometrically degenerate
closed soup with zero signed volume stays at zero, see the
counterexample.) -/
theorem c2_outwardOrientation (vp : List ℚ) (tris : List Tri) :
    computeSignedVolume vp (manifoldizeTris vp tris)
      = |computeSignedVolume vp (fixTriangleWindingsByAdjacency vp tris)|
    ∧ 0 ≤ computeSignedVolume vp (manifoldizeTris vp tris)
    ∧ (computeSignedVolume vp (fixTriangleWindingsByAdjacency vp tris) ≠ 0 →
        0 < computeSignedVolume vp (manifoldizeTris vp tris)) := by
  have hm : manifoldizeTris vp tris =
      (if computeSignedVolume vp (fixTriangleWindingsByAdjacency vp tris) < 0 then
        (fixTriangleWindingsByAdjacency vp tris).map flipTri
      else fixTriangleWindingsByAdjacency vp tris) := rfl
  by_cases h : computeSignedVolume vp (fixTriangleWindingsByAdjacency vp tris) < 0
  · have hv : computeSignedVolume vp (manifoldizeTris vp tris)
        = - computeSignedVolume vp (fixTriangleWindingsByAdjacency vp tris) := by
      rw [hm, if_pos h, computeSignedVolume_flip]
    rw [hv, abs_of_neg h]
    exact ⟨rfl, by linarith, fun _ => by linarith⟩
  · have hv : computeSignedVolume vp (manifoldizeTris vp tris)
        = computeSignedVolume vp (fixTriangleWindingsByAdjacency vp tris) := by
      rw [hm, if_neg h]
    rw [hv, abs_of_nonneg (not_lt.mp h)]
    exact ⟨rfl, not_lt.mp h, fun hne => lt_of_le_of_ne (not_lt.mp h) (Ne.symm hne)⟩

/-- The proper tetrahedron is already coherent, so the repair is a no-op. -/
theorem tetra_fix_eq : fixTriangleWindingsByAdjacency tetraVP tetraTris = tetraTris := by
  unfold fixTriangleWindingsByAdjacency
  rw [if_pos (by decide : isCoherentlyOrientedManifold tetraVP tetraTris = true)]

/-- Signed volume of the proper unit tetrahedron. -/
theorem tetra_vol : computeSignedVolume tetraVP tetraTris = 1 / 6 := by
  norm_num [computeSignedVolume, signedVol6, triTerm, tetraVP, tetraTris]

/-- Witness for `c2_outwardOrientation` on the proper unit tetrahedron. -/
theorem c2_outwardOrientation_witness :
    computeSignedVolume tetraVP (fixTriangleWindingsByAdjacency tetraVP tetraTris) ≠ 0
    ∧ 0 < computeSignedVolume tetraVP (manifoldizeTris tetraVP tetraTris) := by
  have hne : computeSignedVolume tetraVP (fixTriangleWindingsByAdjacency tetraVP tetraTris) ≠ 0 := by
    rw [tetra_fix_eq, tetra_vol]; norm_num
  exact ⟨hne, (c2_outwardOrientation tetraVP tetraTris).2.2 hne⟩

/-- The flat tetrahedron is also coherent (same combinatorics), so the
repair is a no-op for it as well. -/
theorem flat_fix_eq : fixTriangleWindingsByAdjacency flatVP tetraTris = tetraTris := by
  unfold fixTriangleWindingsByAdjacency
  rw [if_pos (by decide : isCoherentlyOrientedManifold flatVP tetraTris = true)]

/-- Signed volume of the degenerate flat tetrahedron. -/
theorem flat_vol : computeSignedVolume flatVP tetraTris = 0 := by
  norm_num [computeSignedVolume, signedVol6, triTerm, flatVP, tetraTris]

/-- C2 counterexample: the flat tetrahedron is a closed 2-manifold triangle
soup (indeed already coherently wound), yet building it leaves signed
volume 0, not positive. -/
theorem c2_counterexample :
    isCoherentlyOrientedManifold flatVP tetraTris = true
    ∧ computeSignedVolume flatVP (manifoldizeTris flatVP tetraTris) = 0
    ∧ ¬ 0 < computeSignedVolume flatVP (manifoldizeTris flatVP tetraTris) := by
  have hman : manifoldizeTris flatVP tetraTris = tetraTris := by
    unfold manifoldizeTris
    rw [flat_fix_eq]
    simp only [flat_vol]
    norm_num
  refine ⟨by decide, ?_, ?_⟩
  · rw [hman, flat_vol]
  · rw [hman, flat_vol]
    norm_num

/-! ## The coherence check (C7) -/

/-- A two-element pattern match subsumes the explicit length test the
claim's wording spells out. -/
theorem groupCheck_eq (grp : List (Nat × Nat)) :
    (match grp with
     | [e0, e1] => e0.1 == e1.2 && e0.2 == e1.1
     | _ => false)
    = (grp.length == 2 &&
       match grp with
       | [e0, e1] => e0.1 == e1.2 && e0.2 == e1.1
       | _ => false) := by
  match grp with
  | [] => rfl
  | [_] => rfl
  | [_, _] => rfl
  | _ :: _ :: _ :: _ => rfl

/-- C7 (amended): the winding-coherence check returns true iff the mesh is
nonempty AND every undirected edge key has exactly two directed uses that
are mutual reverses (the zero-triangle mesh satisfies the key condition
vacuously but the check returns false); when the check returns true the
adjacency repair is skipped and `_manifoldize` goes straight to the
outward-orientation step on the unchanged triangle list. -/
theorem c7_coherenceCheck (vp : List ℚ) (tris : List Tri) :
    (isCoherentlyOrientedManifold vp tris = true ↔
      tris ≠ [] ∧ specCoherentKeys vp tris = true)
    ∧ (isCoherentlyOrientedManifold vp tris = true →
        fixTriangleWindingsByAdjacency vp tris = tris
        ∧ manifoldizeTris vp tris
            = (if computeSignedVolume vp tris < 0 then tris.map flipTri else tris)) := by
  have hbody : specCoherentKeys vp tris
      = ((directedEdges tris).all fun e =>
          match (directedEdges tris).filter
              (fun e2 => ukey (Nat.max 1 (numVertsOf vp)) e2.1 e2.2
                == ukey (Nat.max 1 (numVertsOf vp)) e.1 e.2) with
          | [e0, e1] => e0.1 == e1.2 && e0.2 == e1.1
          | _ => false) := by
    unfold specCoherentKeys
    simp only [← groupCheck_eq]
  constructor
  · by_cases he : tris = []
    · subst he
      simp [isCoherentlyOrientedManifold]
    · have hne : tris.isEmpty = false := by
        cases tris with
        | nil => exact absurd rfl he
        | cons a l => rfl
      unfold isCoherentlyOrientedManifold
      rw [hne, hbody]
      simp [he]
  · intro h
    have hfix : fixTriangleWindingsByAdjacency vp tris = tris := by
      unfold fixTriangleWindingsByAdjacency
      rw [if_pos h]
    refine ⟨hfix, ?_⟩
    unfold manifoldizeTris
    rw [hfix]

/-- Witness for `c7_coherenceCheck`: the unit tetrahedron satisfies both
directions at a concrete input. -/
theorem c7_coherenceCheck_witness :
    (tetraTris ≠ [] ∧ specCoherentKeys tetraVP tetraTris = true)
    ∧ fixTriangleWindingsByAdjacency tetraVP tetraTris = tetraTris := by
  have h := c7_coherenceCheck tetraVP tetraTris
  have hc : isCoherentlyOrientedManifold tetraVP tetraTris = true := by decide
  exact ⟨h.1.mp hc, (h.2 hc).1⟩

/-- C7 counterexample: on the empty (zero-triangle) mesh the check returns
false although the claim's condition — every undirected edge key has
exactly two mutually reversed uses — holds vacuously. -/
theorem c7_counterexample :
    isCoherentlyOrientedManifold ([] : List ℚ) ([] : List Tri) = false
    ∧ specCoherentKeys ([] : List ℚ) ([] : List Tri) = true := by
  decide

/-! ## CADEdge closed-loop flag (C8) -/

/-- C8 (amended): for a polyline with a first and a last point, the closed
flag is true iff the polyline has at least two points and EACH COORDINATE
of the first and last points differs by strictly less than 1e-9 (a
coordinate-wise Chebyshev comparison, not a Euclidean-distance one). -/
theorem c8_closedFlag (ps : List (ℚ × ℚ × ℚ)) (f l : ℚ × ℚ × ℚ)
    (hf : ps.head? = some f) (hl : ps.getLast? = some l) :
    edgeClosedLoop ps = true ↔
      (2 ≤ ps.length ∧ |f.1 - l.1| < edgeEps ∧ |f.2.1 - l.2.1| < edgeEps
        ∧ |f.2.2 - l.2.2| < edgeEps) := by
  unfold edgeClosedLoop
  rw [hf, hl]
  by_cases h2 : 2 ≤ ps.length
  · simp [h2, and_assoc]
  · simp [h2]

/-- Witness for `c8_closedFlag`: a concrete 3-point closed loop. -/
theorem c8_closedFlag_witness :
    edgeClosedLoop [((0 : ℚ), (0 : ℚ), (0 : ℚ)), (1, 0, 0), (0, 0, 0)] = true :=
  (c8_closedFlag [((0 : ℚ), (0 : ℚ), (0 : ℚ)), (1, 0, 0), (0, 0, 0)]
    (0, 0, 0) (0, 0, 0) rfl rfl).mpr
    (by refine ⟨by norm_num, ?_, ?_, ?_⟩ <;> simp [edgeEps])

/-- The far endpoint of the C8 counterexample polyline: each coordinate
differs from the origin by 9e-10 (< 1e-9), but the Euclidean distance is
about 1.56e-9. -/
def nearPtB : ℚ × ℚ × ℚ := (9 / 10000000000, 9 / 10000000000, 9 / 10000000000)

/-- C8 counterexample: the source's coordinate-wise check marks this edge
closed, while the claim's "within 1e-9 absolute distance" (Euclidean)
condition fails — the two readings disagree on this input. -/
theorem c8_counterexample :
    edgeClosedLoop [((0 : ℚ), (0 : ℚ), (0 : ℚ)), nearPtB] = true
    ∧ specEdgeClosedWithin [((0 : ℚ), (0 : ℚ), (0 : ℚ)), nearPtB] = false := by
  constructor
  · unfold edgeClosedLoop nearPtB
    norm_num [edgeEps, abs_lt]
  · unfold specEdgeClosedWithin nearPtB
    norm_num [dist3sq, edgeEps]

/-! ## The geometry compute engine (`GeometryComputer.ts`)

The engine is modelled for its initialized state (`initialized = true`);
initialization itself only loads the external kernel and subscribes the
invalidator.  Kernel handles, mesh buffers and topology summaries are
opaque payloads; the cache-entry shape, the error strings, the dirty flag
and the control flow are modelled exactly. -/

/-- A CAD node id (`string` in the source). -/
abbrev NodeId := String

/-- An opaque CSG-kernel solid handle (`manifold-3d`'s `Manifold`). -/
abbrev KManifold := Nat

/-- An opaque tessellated closed profile of a sketch (`Point2D[]`). -/
abbrev Profile := Nat

/-- A geometry cache entry (`ComputedGeometry` in `core/types.ts`): the
payloads are opaque; which fields are null, the dirty flag and the error
string are modelled exactly. -/
structure ComputedGeometry where
  manifold : Option KManifold
  threeGeometry : Option Nat
  meshData : Option Nat
  topology : Option Nat
  bounds : Option Nat
  dirty : Bool
  error : Option String
deriving DecidableEq, Repr

/-- Mirror of `GeometryComputer.createEmptyGeometry` (lines 481-491): every
geometry field null, `dirty: false`, `error` set to the message. -/
def createEmptyGeometry (error : String) : ComputedGeometry :=
  { manifold := none, threeGeometry := none, meshData := none,
    topology := none, bounds := none, dirty := false, error := some error }

/-- The CAD node kinds `compute` dispatches on, carrying exactly the fields
the computer reads.  The five primitive types share the `primitive`
constructor (their parameter payloads are opaque here); `other` covers
every remaining `node.type` string (e.g. `group`, `plane`), which falls to
the `default` branch of the dispatch. -/
inductive CADNode
  | primitive (params : Nat)
  | boolean (op : String) (operandIds : List NodeId)
  | extrude (sketchId : NodeId) (distance : ℚ) (direction : String)
      (booleanOp : String) (targetBodyId : Option NodeId)
  | revolve (sketchId : NodeId) (angle : ℚ)
  | sketch (profiles : List Profile)
  | other (typeName : String)
deriving DecidableEq, Repr

/-- The data `computePrimitive` packages on success (lines 267-275):
manifold, three-geometry, mesh buffers and topology are all populated; the
bounding box is null when `getBoundingBox` failed. -/
structure PrimOut where
  manifold : KManifold
  threeGeometry : Nat
  meshData : Nat
  topology : Nat
  bounds : Option Nat
deriving DecidableEq, Repr

/-- The external-kernel environment: the `manifoldEngine` methods the
computer calls (every one returns a `Result`, mirrored as `Except`), with
`primitive` standing for the whole of `computePrimitive`'s solid
construction and mesh extraction, and `throwOn` modelling a runtime
exception escaping the dispatch for a node (caught by `compute`'s
`try/catch`; `none` when no exception occurs, the normal case). -/
structure KernelEnv where
  primitive : Nat → Except String PrimOut
  booleanOp : KManifold → KManifold → String → Except String KManifold
  union : KManifold → KManifold → Except String KManifold
  extrude : Profile → ℚ → Except String KManifold
  translate : KManifold → ℚ × ℚ × ℚ → Except String KManifold
  revolve : Profile → ℚ → Except String KManifold
  extractMesh : KManifold → Except String Nat
  extractTopology : KManifold → Except String Nat
  getBoundingBox : KManifold → Except String Nat
  throwOn : NodeId → Option String

/-- Mirror of `GeometryComputer.manifoldToGeometry` (lines 443-476): a
failed `extractMesh` yields an empty geometry; otherwise topology and
bounds are kept only on success, `dirty: false`, `error: null`. -/
def manifoldToGeometry (env : KernelEnv) (solid : KManifold) : ComputedGeometry :=
  match env.extractMesh solid with
  | .error e => createEmptyGeometry e
  | .ok mesh =>
    { manifold := some solid, threeGeometry := some mesh, meshData := some mesh,
      topology := (env.extractTopology solid).toOption,
      bounds := (env.getBoundingBox solid).toOption,
      dirty := false, error := none }

/-- Mirror of `GeometryComputer.computePrimitive` (lines 153-280),
abstracted over the shape-specific solid construction: on success the
record of lines 267-275 with `dirty: false`, `error: null`; on any failure
(unknown type, kernel not ready, construction error, extraction error) an
empty geometry carrying the message. -/
def computePrimitive (env : KernelEnv) (params : Nat) : ComputedGeometry :=
  match env.primitive params with
  | .error e => createEmptyGeometry e
  | .ok o =>
    { manifold := some o.manifold, threeGeometry := some o.threeGeometry,
      meshData := some o.meshData, topology := some o.topology,
      bounds := o.bounds, dirty := false, error := none }

/-- The computer's mutable context: the geometry cache store's map and the
`computing` set (a `Set<string>` in the source, a list here). -/
structure EngineState where
  cache : NodeId → Option ComputedGeometry
  computing : List NodeId

/-- Mirror of `geometryCacheStore.set` (cadStore): overwrite one entry. -/
def cacheSet (c : NodeId → Option ComputedGeometry) (nodeId : NodeId)
    (g : ComputedGeometry) : NodeId → Option ComputedGeometry :=
  fun x => if x = nodeId then some g else c x

/-- Mirror of `geometryCacheStore.markDirty` (cadStore): set the dirty flag
of an existing entry; a node with no cache entry is left without one. -/
def cacheMarkDirty (c : NodeId → Option ComputedGeometry) (nodeId : NodeId) :
    NodeId → Option ComputedGeometry :=
  fun x => if x = nodeId then (c nodeId).map (fun g => { g with dirty := true }) else c x

/-- The type of the recursive `this.compute` calls threaded through the
per-kind helpers. -/
abbrev ComputeFn := EngineState → NodeId → (Except String ComputedGeometry) × EngineState

/-- The per-profile (height, zOffset) computation of `computeExtrude`
(lines 337-347): height starts at `distance` and zOffset at 0; `both`
doubles the height and offsets by `-distance`; `symmetric` keeps the
height and offsets by `-distance / 2`; any other direction string (i.e.
`normal`) keeps `(distance, 0)`. -/
def extrudeHeightOffset (direction : String) (distance : ℚ) : ℚ × ℚ :=
  if direction = "both" then (distance * 2, -distance)
  else if direction = "symmetric" then (distance, -distance / 2)
  else (distance, 0)

/-- One iteration of `computeExtrude`'s profile loop (lines 337-363): a
failed `extrude` skips the profile; a zero offset skips the translate
call; a failed `translate` keeps the untranslated solid. -/
def perProfileExtrude (env : KernelEnv) (direction : String) (distance : ℚ)
    (profile : Profile) : Option KManifold :=
  let hz := extrudeHeightOffset direction distance
  match env.extrude profile hz.1 with
  | .error _ => none
  | .ok solid =>
    some (if hz.2 ≠ 0 then
            match env.translate solid (0, 0, hz.2) with
            | .ok moved => moved
            | .error _ => solid
          else solid)

/-- The union loop shared by `computeExtrude` (lines 370-376) and
`computeRevolve` (lines 429-435): fold `union` over the remaining per-
profile results, silently keeping the accumulator whenever a union
fails. -/
def unionFold (env : KernelEnv) : KManifold → List KManifold → KManifold
  | r, [] => r
  | r, s :: rest =>
    match env.union r s with
    | .ok u => unionFold env u rest
    | .error _ => unionFold env r rest

/-- Mirror of `computeBoolean`'s operand loop (lines 291-298): compute each
operand in list order via `recur` (the surrounding `compute`); abort on the
first operand whose computation fails or whose result has a null manifold,
reporting that operand's id. -/
def computeOperands (recur : ComputeFn) :
    List NodeId → EngineState → (Except NodeId (List ComputedGeometry)) × EngineState
  | [], st => (.ok [], st)
  | opId :: rest, st =>
    match recur st opId with
    | (.error _, st1) => (.error opId, st1)
    | (.ok g, st1) =>
      if g.manifold.isSome then
        match computeOperands recur rest st1 with
        | (.ok gs, st2) => (.ok (g :: gs), st2)
        | (.error fid, st2) => (.error fid, st2)
      else (.error opId, st1)

/-- Mirror of `computeBoolean`'s operation fold (lines 300-311): left-fold
the operator over the operand manifolds, aborting with the kernel message
on the first failing operation.  `getD 0` models the source's non-null
assertion (`.manifold!`) on operands already checked non-null. -/
def booleanFold (env : KernelEnv) (op : String) :
    KManifold → List ComputedGeometry → Except String KManifold
  | r, [] => .ok r
  | r, g :: rest =>
    match env.booleanOp r (g.manifold.getD 0) op with
    | .error e => .error e
    | .ok u => booleanFold env op u rest

/-- Mirror of `GeometryComputer.computeBoolean` (lines 285-314). -/
def computeBoolean (env : KernelEnv) (recur : ComputeFn) (st : EngineState)
    (op : String) (operandIds : List NodeId) : ComputedGeometry × EngineState :=
  if operandIds.length < 2 then
    (createEmptyGeometry "Boolean requires at least 2 operands", st)
  else
    match computeOperands recur operandIds st with
    | (.error failId, st1) =>
      (createEmptyGeometry ("Failed to compute operand: " ++ failId), st1)
    | (.ok gs, st1) =>
      match gs with
      | [] =>
        -- not reachable from `compute`: the guard admits only operand lists
        -- of length at least two, whose successful traversal is nonempty
        (createEmptyGeometry "Boolean requires at least 2 operands", st1)
      | g0 :: grest =>
        match booleanFold env op (g0.manifold.getD 0) grest with
        | .error e => (createEmptyGeometry e, st1)
        | .ok r => (manifoldToGeometry env r, st1)

/-- Mirror of `GeometryComputer.computeExtrude` (lines 319-394): resolve the
sketch, require profiles, extrude/translate per profile, union, then — for
a non-`new` boolean op with a target body — compute the target and apply
the boolean, every failure of that last stage silently keeping the plain
extrusion result. -/
def computeExtrude (env : KernelEnv) (nodes : List (NodeId × CADNode))
    (recur : ComputeFn) (st : EngineState) (sketchId : NodeId) (distance : ℚ)
    (direction : String) (booleanOp : String) (targetBodyId : Option NodeId) :
    ComputedGeometry × EngineState :=
  match nodes.lookup sketchId with
  | some (.sketch profiles) =>
    if profiles.isEmpty then (createEmptyGeometry "No closed profiles in sketch", st)
    else
      match profiles.filterMap (perProfileExtrude env direction distance) with
      | [] => (createEmptyGeometry "Extrusion failed", st)
      | r0 :: rest =>
        let result := unionFold env r0 rest
        match targetBodyId with
        | some targetId =>
          if booleanOp ≠ "new" then
            match recur st targetId with
            | (.ok tg, st1) =>
              match tg.manifold with
              | some tm =>
                match env.booleanOp tm result booleanOp with
                | .ok r2 => (manifoldToGeometry env r2, st1)
                | .error _ => (manifoldToGeometry env result, st1)
              | none => (manifoldToGeometry env result, st1)
            | (.error _, st1) => (manifoldToGeometry env result, st1)
          else (manifoldToGeometry env result, st)
        | none => (manifoldToGeometry env result, st)
  | _ => (createEmptyGeometry "Sketch not found", st)

/-- Mirror of `GeometryComputer.computeRevolve` (lines 399-438): resolve the
sketch, require profiles, revolve each profile by the angle (a failed
revolve silently skips the profile), error only when every profile failed,
union the rest. -/
def computeRevolve (env : KernelEnv) (nodes : List (NodeId × CADNode))
    (st : EngineState) (sketchId : NodeId) (angle : ℚ) :
    ComputedGeometry × EngineState :=
  match nodes.lookup sketchId with
  | some (.sketch profiles) =>
    if profiles.isEmpty then (createEmptyGeometry "No closed profiles in sketch", st)
    else
      match profiles.filterMap (fun p => (env.revolve p angle).toOption) with
      | [] => (createEmptyGeometry "Revolution failed", st)
      | r0 :: rest => (manifoldToGeometry env (unionFold env r0 rest), st)
  | _ => (createEmptyGeometry "Sketch not found", st)

/-- The `switch (node.type)` dispatch inside `compute` (lines 114-135). -/
def dispatchNode (env : KernelEnv) (nodes : List (NodeId × CADNode))
    (recur : ComputeFn) (st : EngineState) : CADNode → ComputedGeometry × EngineState
  | .primitive params => (computePrimitive env params, st)
  | .boolean op operandIds => computeBoolean env recur st op operandIds
  | .extrude sketchId distance direction booleanOp targetBodyId =>
      computeExtrude env nodes recur st sketchId distance direction booleanOp targetBodyId
  | .revolve sketchId angle => computeRevolve env nodes st sketchId angle
  | .sketch _ => (createEmptyGeometry ("Unsupported node type: " ++ "sketch"), st)
  | .other typeName => (createEmptyGeometry ("Unsupported node type: " ++ typeName), st)

/-- The body of `compute` past the guard, lookup and cache check (lines
109-148): add the id to `computing`, dispatch inside the `try`/`catch`
(with `throwOn` modelling a thrown exception), write the resulting
geometry to the cache unconditionally, and — the `finally` — remove the id
from `computing`. -/
def computeBody (env : KernelEnv) (nodes : List (NodeId × CADNode))
    (recur : ComputeFn) (st : EngineState) (nodeId : NodeId) (node : CADNode) :
    (Except String ComputedGeometry) × EngineState :=
  let st1 : EngineState := { st with computing := nodeId :: st.computing }
  match env.throwOn nodeId with
  | some e =>
    let msg := "Computation error: " ++ e
    (.error msg,
      { cache := cacheSet st1.cache nodeId (createEmptyGeometry msg),
        computing := st1.computing.erase nodeId })
  | none =>
    let r := dispatchNode env nodes recur st1 node
    (.ok r.1,
      { cache := cacheSet r.2.cache nodeId r.1,
        computing := r.2.computing.erase nodeId })

/-- Mirror of `GeometryComputer.compute` (lines 85-148) for an initialized
engine: the re-entrancy guard, node lookup, clean-cache fast path, then
`computeBody`.  The fuel argument is a model artifact bounding the depth of
the recursion (which the source bounds dynamically through the `computing`
guard); exhausted fuel returns an error without touching the state. -/
def compute (env : KernelEnv) (nodes : List (NodeId × CADNode)) :
    Nat → EngineState → NodeId → (Except String ComputedGeometry) × EngineState
  | 0, st, _ => (.error "out of fuel", st)
  | fuel + 1, st, nodeId =>
    if nodeId ∈ st.computing then (.error "Already computing this node", st)
    else
      match nodes.lookup nodeId with
      | none => (.error ("Node not found: " ++ nodeId), st)
      | some node =>
        match st.cache nodeId with
        | some cached =>
          if !cached.dirty then (.ok cached, st)
          else computeBody env nodes (compute env nodes fuel) st nodeId node
        | none => computeBody env nodes (compute env nodes fuel) st nodeId node

/-- Does `node` directly reference `nodeId`: boolean operand-list
membership, or extrude/revolve sketch-id equality (lines 502-514)? -/
def refersTo (node : CADNode) (nodeId : NodeId) : Bool :=
  match node with
  | .boolean _ operandIds => operandIds.contains nodeId
  | .extrude sketchId _ _ _ _ => sketchId == nodeId
  | .revolve sketchId _ => sketchId == nodeId
  | _ => false

/-- Mirror of `GeometryComputer.markDirtyWithDependents` (lines 496-516):
mark the node's cache entry dirty, then scan the full node set and recurse
into every node that directly references it.  The fuel argument is a model
artifact bounding the recursion depth (the source recursion terminates on
acyclic reference graphs, which is what the spec demands). -/
def markDirtyWithDependents (nodes : List (NodeId × CADNode)) :
    Nat → (NodeId → Option ComputedGeometry) → NodeId → (NodeId → Option ComputedGeometry)
  | 0, c, _ => c
  | fuel + 1, c, nodeId =>
    nodes.foldl
      (fun acc p =>
        if refersTo p.2 nodeId then markDirtyWithDependents nodes fuel acc p.1 else acc)
      (cacheMarkDirty c nodeId)

/-! ## The re-entrancy guard and the `finally` cleanup (C5, C10) -/

/-- C5: a `compute(X)` issued while an earlier `compute(X)` is still in
progress (X is in the `computing` set) fails fast with the re-entrancy
error — neither queuing nor recursing — and returns the state, in
particular the geometry cache, untouched. -/
theorem c5_reentrancyGuard (env : KernelEnv) (nodes : List (NodeId × CADNode))
    (fuel : Nat) (st : EngineState) (nodeId : NodeId)
    (h : nodeId ∈ st.computing) :
    compute env nodes (fuel + 1) st nodeId
      = (.error "Already computing this node", st) := by
  unfold compute
  rw [if_pos h]

/-- A kernel environment whose every operation fails benignly and that
raises no exceptions; used to instantiate witnesses. -/
def trivEnv : KernelEnv :=
  { primitive := fun _ => .error "kernel unavailable"
    booleanOp := fun _ _ _ => .error "kernel unavailable"
    union := fun _ _ => .error "kernel unavailable"
    extrude := fun _ _ => .error "kernel unavailable"
    translate := fun _ _ => .error "kernel unavailable"
    revolve := fun _ _ => .error "kernel unavailable"
    extractMesh := fun _ => .error "kernel unavailable"
    extractTopology := fun _ => .error "kernel unavailable"
    getBoundingBox := fun _ => .error "kernel unavailable"
    throwOn := fun _ => none }

/-- Witness for `c5_reentrancyGuard` at a concrete in-progress state. -/
theorem c5_reentrancyGuard_witness :
    compute trivEnv [] 1 { cache := fun _ => none, computing := ["a"] } "a"
      = (.error "Already computing this node",
          { cache := fun _ => none, computing := ["a"] }) :=
  c5_reentrancyGuard trivEnv [] 0 { cache := fun _ => none, computing := ["a"] } "a"
    (by decide)

theorem computeOperands_computing (recur : ComputeFn)
    (h : ∀ st x, ((recur st x).2).computing = st.computing) :
    ∀ (ops : List NodeId) (st : EngineState),
      ((computeOperands recur ops st).2).computing = st.computing := by
  intro ops
  induction ops with
  | nil => intro st; rfl
  | cons op rest ih =>
    intro st
    unfold computeOperands
    split
    next e st1 heq =>
      have hx := h st op
      rw [heq] at hx
      exact hx
    next g st1 heq =>
      have hx := h st op
      rw [heq] at hx
      by_cases hm : g.manifold.isSome
      · rw [if_pos hm]
        split
        next gs st2 heq2 =>
          have hy := ih st1
          rw [heq2] at hy
          exact hy.trans hx
        next fid st2 heq2 =>
          have hy := ih st1
          rw [heq2] at hy
          exact hy.trans hx
      · rw [if_neg hm]
        exact hx

theorem computeBoolean_computing (env : KernelEnv) (recur : ComputeFn)
    (st : EngineState) (op : String) (operandIds : List NodeId)
    (h : ∀ st x, ((recur st x).2).computing = st.computing) :
    ((computeBoolean env recur st op operandIds).2).computing = st.computing := by
  unfold computeBoolean
  split
  · rfl
  · split
    next failId st1 heq =>
      have hx := computeOperands_computing recur h operandIds st
      rw [heq] at hx
      exact hx
    next gs st1 heq =>
      have hx := computeOperands_computing recur h operandIds st
      rw [heq] at hx
      split
      · exact hx
      · split
        · exact hx
        · exact hx

theorem computeExtrude_computing (env : KernelEnv)
    (nodes : List (NodeId × CADNode)) (recur : ComputeFn) (st : EngineState)
    (sketchId : NodeId) (distance : ℚ) (direction booleanOp : String)
    (targetBodyId : Option NodeId)
    (h : ∀ st x, ((recur st x).2).computing = st.computing) :
    ((computeExtrude env nodes recur st sketchId distance direction booleanOp
        targetBodyId).2).computing = st.computing := by
  unfold computeExtrude
  split
  next profiles heq =>
    split
    · rfl
    · split
      · rfl
      next r0 rest heq2 =>
        split
        next targetId =>
          split
          · split
            next tg st1 heq3 =>
              have hx := h st targetId
              rw [heq3] at hx
              split
              · dsimp only
                split
                · exact hx
                · exact hx
              · exact hx
            next e st1 heq3 =>
              have hx := h st targetId
              rw [heq3] at hx
              exact hx
          · rfl
        · rfl
  · rfl

theorem computeRevolve_computing (env : KernelEnv)
    (nodes : List (NodeId × CADNode)) (st : EngineState) (sketchId : NodeId)
    (angle : ℚ) :
    ((computeRevolve env nodes st sketchId angle).2).computing = st.computing := by
  unfold computeRevolve
  split
  next profiles heq =>
    split
    · rfl
    · split
      · rfl
      · rfl
  · rfl

theorem dispatchNode_computing (env : KernelEnv)
    (nodes : List (NodeId × CADNode)) (recur : ComputeFn) (st : EngineState)
    (node : CADNode)
    (h : ∀ st x, ((recur st x).2).computing = st.computing) :
    ((dispatchNode env nodes recur st node).2).computing = st.computing := by
  cases node with
  | primitive params => rfl
  | boolean op operandIds => exact computeBoolean_computing env recur st op operandIds h
  | extrude sketchId distance direction booleanOp targetBodyId =>
      exact computeExtrude_computing env nodes recur st sketchId distance direction
        booleanOp targetBodyId h
  | revolve sketchId angle => exact computeRevolve_computing env nodes st sketchId angle
  | sketch profiles => rfl
  | other typeName => rfl

theorem computeBody_computing (env : KernelEnv)
    (nodes : List (NodeId × CADNode)) (recur : ComputeFn) (st : EngineState)
    (nodeId : NodeId) (node : CADNode)
    (h : ∀ st x, ((recur st x).2).computing = st.computing) :
    ((computeBody env nodes recur st nodeId node).2).computing = st.computing := by
  unfold computeBody
  split
  · exact List.erase_cons_head nodeId st.computing
  · have hd := dispatchNode_computing env nodes recur
      { st with computing := nodeId :: st.computing } node h
    show (((dispatchNode env nodes recur
        { st with computing := nodeId :: st.computing } node).2).computing).erase nodeId
      = st.computing
    rw [hd]
    exact List.erase_cons_head nodeId st.computing

theorem compute_computing (env : KernelEnv) (nodes : List (NodeId × CADNode)) :
    ∀ (fuel : Nat) (st : EngineState) (nodeId : NodeId),
      ((compute env nodes fuel st nodeId).2).computing = st.computing := by
  intro fuel
  induction fuel with
  | zero => intro st nodeId; rfl
  | succ f ih =>
    intro st nodeId
    unfold compute
    split
    · rfl
    · split
      · rfl
      next node heq =>
        split
        next cached heq2 =>
          split
          · rfl
          · exact computeBody_computing env nodes (compute env nodes f) st nodeId node
              (fun st2 x => ih st2 x)
        next heq2 =>
          exact computeBody_computing env nodes (compute env nodes f) st nodeId node
            (fun st2 x => ih st2 x)

theorem computeBody_not_guard (env : KernelEnv) (nodes : List (NodeId × CADNode))
    (recur : ComputeFn) (st : EngineState) (nodeId : NodeId) (node : CADNode) :
    (computeBody env nodes recur st nodeId node).1
      ≠ .error "Already computing this node" := by
  unfold computeBody
  split
  · intro hcontra
    have h2 := congrArg
      (fun q : Except String ComputedGeometry =>
        match q with
        | .error s => s.data.head?
        | .ok _ => none) hcontra
    simp [String.append] at h2
  · intro hcontra
    exact Except.noConfusion hcontra

/-- C10: however a `compute(nodeId)` call terminates — guard rejection,
missing node, cache hit, caught exception, or a stored result — the
`finally` clause leaves the `computing` set exactly as it was, and a later
`compute` for the same id (from a state where it was not already in
progress) is never rejected by the re-entrancy guard. -/
theorem c10_computingCleanup (env : KernelEnv) (nodes : List (NodeId × CADNode))
    (fuel fuel2 : Nat) (st : EngineState) (nodeId : NodeId)
    (h : nodeId ∉ st.computing) :
    ((compute env nodes fuel st nodeId).2).computing = st.computing
    ∧ (compute env nodes (fuel2 + 1) (compute env nodes fuel st nodeId).2 nodeId).1
        ≠ .error "Already computing this node" := by
  refine ⟨compute_computing env nodes fuel st nodeId, ?_⟩
  have hno : nodeId ∉ ((compute env nodes fuel st nodeId).2).computing := by
    rw [compute_computing env nodes fuel st nodeId]
    exact h
  unfold compute
  rw [if_neg hno]
  split
  · intro hcontra
    have h2 := congrArg
      (fun q : Except String ComputedGeometry =>
        match q with
        | .error s => s.data.head?
        | .ok _ => none) hcontra
    simp [String.append] at h2
  next node heq =>
    split
    next cached heq2 =>
      split
      · intro hcontra
        exact Except.noConfusion hcontra
      · exact computeBody_not_guard env nodes (compute env nodes fuel2)
          (compute env nodes fuel st nodeId).2 nodeId node
    next heq2 =>
      exact computeBody_not_guard env nodes (compute env nodes fuel2)
        (compute env nodes fuel st nodeId).2 nodeId node

/-! ## Shape of every cache entry `compute` stores (C1) -/

/-- The shape of every geometry `compute` ever writes to the cache: the
dirty flag is false, and an entry carrying an error message is exactly
`createEmptyGeometry` of that message (every geometry field null). -/
def StoredOk (g : ComputedGeometry) : Prop :=
  g.dirty = false ∧ ∀ msg, g.error = some msg → g = createEmptyGeometry msg

theorem storedOk_empty (msg : String) : StoredOk (createEmptyGeometry msg) := by
  refine ⟨rfl, fun m hm => ?_⟩
  have hmm : msg = m := by
    simpa [createEmptyGeometry] using hm
  rw [← hmm]

theorem storedOk_manifoldToGeometry (env : KernelEnv) (solid : KManifold) :
    StoredOk (manifoldToGeometry env solid) := by
  unfold manifoldToGeometry
  split
  · exact storedOk_empty _
  · exact ⟨rfl, fun m hm => by simp at hm⟩

theorem storedOk_computePrimitive (env : KernelEnv) (params : Nat) :
    StoredOk (computePrimitive env params) := by
  unfold computePrimitive
  split
  · exact storedOk_empty _
  · exact ⟨rfl, fun m hm => by simp at hm⟩

theorem storedOk_computeBoolean (env : KernelEnv) (recur : ComputeFn)
    (st : EngineState) (op : String) (operandIds : List NodeId) :
    StoredOk ((computeBoolean env recur st op operandIds).1) := by
  unfold computeBoolean
  split
  · exact storedOk_empty _
  · split
    · exact storedOk_empty _
    · split
      · exact storedOk_empty _
      · split
        · exact storedOk_empty _
        · exact storedOk_manifoldToGeometry env _

theorem storedOk_computeExtrude (env : KernelEnv)
    (nodes : List (NodeId × CADNode)) (recur : ComputeFn) (st : EngineState)
    (sketchId : NodeId) (distance : ℚ) (direction booleanOp : String)
    (targetBodyId : Option NodeId) :
    StoredOk ((computeExtrude env nodes recur st sketchId distance direction
      booleanOp targetBodyId).1) := by
  unfold computeExtrude
  repeat' first
    | exact storedOk_empty _
    | exact storedOk_manifoldToGeometry env _
    | split
    | dsimp only

theorem storedOk_computeRevolve (env : KernelEnv)
    (nodes : List (NodeId × CADNode)) (st : EngineState) (sketchId : NodeId)
    (angle : ℚ) :
    StoredOk ((computeRevolve env nodes st sketchId angle).1) := by
  unfold computeRevolve
  split
  · split
    · exact storedOk_empty _
    · split
      · exact storedOk_empty _
      · exact storedOk_manifoldToGeometry env _
  · exact storedOk_empty _

theorem storedOk_dispatchNode (env : KernelEnv)
    (nodes : List (NodeId × CADNode)) (recur : ComputeFn) (st : EngineState)
    (node : CADNode) :
    StoredOk ((dispatchNode env nodes recur st node).1) := by
  cases node with
  | primitive params => exact storedOk_computePrimitive env params
  | boolean op operandIds => exact storedOk_computeBoolean env recur st op operandIds
  | extrude sketchId distance direction booleanOp targetBodyId =>
      exact storedOk_computeExtrude env nodes recur st sketchId distance direction
        booleanOp targetBodyId
  | revolve sketchId angle => exact storedOk_computeRevolve env nodes st sketchId angle
  | sketch profiles => exact storedOk_empty _
  | other typeName => exact storedOk_empty _

/-- One engine step only overwrites cache entries with `StoredOk` values:
each entry is either untouched or freshly written and well-shaped. -/
def CacheWritesOk (st st2 : EngineState) : Prop :=
  ∀ x, st2.cache x = st.cache x ∨ ∃ g, st2.cache x = some g ∧ StoredOk g

theorem cacheWritesOk_refl (st : EngineState) : CacheWritesOk st st :=
  fun _ => Or.inl rfl

theorem cacheWritesOk_of_eq {st st2 : EngineState} (h : st2.cache = st.cache) :
    CacheWritesOk st st2 := fun x => Or.inl (congrFun h x)

theorem cacheWritesOk_trans {st st1 st2 : EngineState}
    (h1 : CacheWritesOk st st1) (h2 : CacheWritesOk st1 st2) :
    CacheWritesOk st st2 := by
  intro x
  rcases h2 x with heq | hg
  · rcases h1 x with heq1 | hg1
    · exact Or.inl (heq.trans heq1)
    · exact Or.inr (heq ▸ hg1)
  · exact Or.inr hg

theorem computeOperands_cacheWrites (recur : ComputeFn)
    (h : ∀ st x, CacheWritesOk st (recur st x).2) :
    ∀ (ops : List NodeId) (st : EngineState),
      CacheWritesOk st (computeOperands recur ops st).2 := by
  intro ops
  induction ops with
  | nil => intro st; exact cacheWritesOk_refl st
  | cons op rest ih =>
    intro st
    unfold computeOperands
    split
    next e st1 heq =>
      have hx := h st op
      rw [heq] at hx
      exact hx
    next g st1 heq =>
      have hx := h st op
      rw [heq] at hx
      by_cases hm : g.manifold.isSome
      · rw [if_pos hm]
        split
        next gs st2 heq2 =>
          have hy := ih st1
          rw [heq2] at hy
          exact cacheWritesOk_trans hx hy
        next fid st2 heq2 =>
          have hy := ih st1
          rw [heq2] at hy
          exact cacheWritesOk_trans hx hy
      · rw [if_neg hm]
        exact hx

theorem computeBoolean_cacheWrites (env : KernelEnv) (recur : ComputeFn)
    (st : EngineState) (op : String) (operandIds : List NodeId)
    (h : ∀ st x, CacheWritesOk st (recur st x).2) :
    CacheWritesOk st (computeBoolean env recur st op operandIds).2 := by
  unfold computeBoolean
  split
  · exact cacheWritesOk_refl st
  · split
    next failId st1 heq =>
      have hx := computeOperands_cacheWrites recur h operandIds st
      rw [heq] at hx
      exact hx
    next gs st1 heq =>
      have hx := computeOperands_cacheWrites recur h operandIds st
      rw [heq] at hx
      split
      · exact hx
      · split
        · exact hx
        · exact hx

theorem computeExtrude_cacheWrites (env : KernelEnv)
    (nodes : List (NodeId × CADNode)) (recur : ComputeFn) (st : EngineState)
    (sketchId : NodeId) (distance : ℚ) (direction booleanOp : String)
    (targetBodyId : Option NodeId)
    (h : ∀ st x, CacheWritesOk st (recur st x).2) :
    CacheWritesOk st (computeExtrude env nodes recur st sketchId distance direction
      booleanOp targetBodyId).2 := by
  unfold computeExtrude
  split
  next profiles heq =>
    split
    · exact cacheWritesOk_refl st
    · split
      · exact cacheWritesOk_refl st
      next r0 rest heq2 =>
        split
        next targetId =>
          split
          · split
            next tg st1 heq3 =>
              have hx := h st targetId
              rw [heq3] at hx
              split
              · dsimp only
                split
                · exact hx
                · exact hx
              · exact hx
            next e st1 heq3 =>
              have hx := h st targetId
              rw [heq3] at hx
              exact hx
          · exact cacheWritesOk_refl st
        · exact cacheWritesOk_refl st
  · exact cacheWritesOk_refl st

theorem computeRevolve_cacheWrites (env : KernelEnv)
    (nodes : List (NodeId × CADNode)) (st : EngineState) (sketchId : NodeId)
    (angle : ℚ) :
    CacheWritesOk st (computeRevolve env nodes st sketchId angle).2 := by
  unfold computeRevolve
  split
  · split
    · exact cacheWritesOk_refl st
    · split
      · exact cacheWritesOk_refl st
      · exact cacheWritesOk_refl st
  · exact cacheWritesOk_refl st

theorem dispatchNode_cacheWrites (env : KernelEnv)
    (nodes : List (NodeId × CADNode)) (recur : ComputeFn) (st : EngineState)
    (node : CADNode)
    (h : ∀ st x, CacheWritesOk st (recur st x).2) :
    CacheWritesOk st (dispatchNode env nodes recur st node).2 := by
  cases node with
  | primitive params => exact cacheWritesOk_refl st
  | boolean op operandIds => exact computeBoolean_cacheWrites env recur st op operandIds h
  | extrude sketchId distance direction booleanOp targetBodyId =>
      exact computeExtrude_cacheWrites env nodes recur st sketchId distance direction
        booleanOp targetBodyId h
  | revolve sketchId angle => exact computeRevolve_cacheWrites env nodes st sketchId angle
  | sketch profiles => exact cacheWritesOk_refl st
  | other typeName => exact cacheWritesOk_refl st

theorem computeBody_cacheWrites (env : KernelEnv)
    (nodes : List (NodeId × CADNode)) (recur : ComputeFn) (st : EngineState)
    (nodeId : NodeId) (node : CADNode)
    (h : ∀ st x, CacheWritesOk st (recur st x).2) :
    CacheWritesOk st (computeBody env nodes recur st nodeId node).2 := by
  unfold computeBody
  split
  next e heq =>
    intro x
    by_cases hx : x = nodeId
    · refine Or.inr ⟨createEmptyGeometry ("Computation error: " ++ e), ?_, storedOk_empty _⟩
      simp [cacheSet, hx]
    · exact Or.inl (by simp [cacheSet, hx])
  next heq =>
    intro x
    by_cases hx : x = nodeId
    · refine Or.inr
        ⟨(dispatchNode env nodes recur
            { st with computing := nodeId :: st.computing } node).1, ?_,
          storedOk_dispatchNode env nodes recur
            { st with computing := nodeId :: st.computing } node⟩
      simp [cacheSet, hx]
    · have hd := dispatchNode_cacheWrites env nodes recur
        { st with computing := nodeId :: st.computing } node h
      rcases hd x with heq2 | hg
      · exact Or.inl (by simpa [cacheSet, hx] using heq2)
      · exact Or.inr ⟨hg.choose, by simpa [cacheSet, hx] using hg.choose_spec.1,
          hg.choose_spec.2⟩

theorem compute_cacheWrites (env : KernelEnv) (nodes : List (NodeId × CADNode)) :
    ∀ (fuel : Nat) (st : EngineState) (nodeId : NodeId),
      CacheWritesOk st (compute env nodes fuel st nodeId).2 := by
  intro fuel
  induction fuel with
  | zero => intro st nodeId; exact cacheWritesOk_refl st
  | succ f ih =>
    intro st nodeId
    unfold compute
    split
    · exact cacheWritesOk_refl st
    · split
      · exact cacheWritesOk_refl st
      next node heq =>
        split
        next cached heq2 =>
          split
          · exact cacheWritesOk_refl st
          · exact computeBody_cacheWrites env nodes (compute env nodes f) st nodeId node
              (fun st2 x => ih st2 x)
        next heq2 =>
          exact computeBody_cacheWrites env nodes (compute env nodes f) st nodeId node
            (fun st2 x => ih st2 x)

/-- C1 (amended): every cache entry a `compute` invocation overwrites has
`dirty = false` — whether or not the computation succeeded — and any entry
carrying an error message is exactly `createEmptyGeometry` of that message
(all geometry fields null); entries with `error = null` are the success
results.  The original claim's "dirty=false only if the computation
succeeded" fails on the code: failure entries also carry `dirty: false`
(see the counterexample). -/
theorem c1_cacheWriteShape (env : KernelEnv) (nodes : List (NodeId × CADNode))
    (fuel : Nat) (st : EngineState) (nodeId x : NodeId) :
    (compute env nodes fuel st nodeId).2.cache x = st.cache x
    ∨ ∃ g, (compute env nodes fuel st nodeId).2.cache x = some g
        ∧ g.dirty = false
        ∧ (∀ msg, g.error = some msg → g = createEmptyGeometry msg) :=
  compute_cacheWrites env nodes fuel st nodeId x

/-- A stale (dirty) cache entry, as left behind by the invalidator. -/
def dirtyEntry : ComputedGeometry :=
  { manifold := none, threeGeometry := none, meshData := none,
    topology := none, bounds := none, dirty := true, error := none }

/-- A one-node document whose single node is a boolean with one operand —
a node whose computation always fails validation. -/
def oneOperandNodes : List (NodeId × CADNode) := [("b", .boolean "union" ["a"])]

/-- A state in which the failing boolean node has a dirty cache entry. -/
def dirtyState : EngineState :=
  { cache := fun x => if x = "b" then some dirtyEntry else none, computing := [] }

/-- Witness for `c1_cacheWriteShape` at the concrete failing recompute. -/
theorem c1_cacheWriteShape_witness :
    (compute trivEnv oneOperandNodes 2 dirtyState "b").2.cache "b"
      = dirtyState.cache "b"
    ∨ ∃ g, (compute trivEnv oneOperandNodes 2 dirtyState "b").2.cache "b" = some g
        ∧ g.dirty = false
        ∧ (∀ msg, g.error = some msg → g = createEmptyGeometry msg) :=
  c1_cacheWriteShape trivEnv oneOperandNodes 2 dirtyState "b" "b"

/-- C1 counterexample: recomputing the one-operand boolean node fails
(validation error), yet the freshly stored entry has `dirty = false` —
the dirty flag of the stale entry was cleared by a FAILED recompute, and
the entry carries the error message. -/
theorem c1_counterexample :
    (dirtyState.cache "b").map (fun g => g.dirty) = some true
    ∧ (compute trivEnv oneOperandNodes 2 dirtyState "b").2.cache "b"
        = some (createEmptyGeometry "Boolean requires at least 2 operands")
    ∧ (createEmptyGeometry "Boolean requires at least 2 operands").dirty = false
    ∧ (createEmptyGeometry "Boolean requires at least 2 operands").error ≠ none := by
  refine ⟨rfl, by decide, rfl, by decide⟩

/-! ## Extrude direction math (C3) -/

/-- Modelled from the spec: the CSG kernel's `extrude` (external,
`manifold-3d`) produces a prism spanning `[0, height]` along the extrusion
axis, which `computeExtrude` then translates by `zOffset` (spec 4.5:
"Extrude each profile to that height, translate by zOffset"); a profile
centered at the plane origin therefore spans `[zOffset, zOffset + height]`
along the axis. -/
def prismAxisSpan (height zOffset : ℚ) : ℚ × ℚ := (zOffset, zOffset + height)

/-- C3: the per-profile (height, offset) pairs per direction mode, and the
resulting bounding spans for distance 10: symmetric gives [-5, 5], both
gives [-10, 10]. -/
theorem c3_extrudeDirectionMath (d : ℚ) :
    extrudeHeightOffset "normal" d = (d, 0)
    ∧ extrudeHeightOffset "both" d = (2 * d, -d)
    ∧ extrudeHeightOffset "symmetric" d = (d, -d / 2)
    ∧ prismAxisSpan (extrudeHeightOffset "symmetric" 10).1
        (extrudeHeightOffset "symmetric" 10).2 = (-5, 5)
    ∧ prismAxisSpan (extrudeHeightOffset "both" 10).1
        (extrudeHeightOffset "both" 10).2 = (-10, 10) := by
  have hnb : ¬ ("normal" : String) = "both" := by decide
  have hns : ¬ ("normal" : String) = "symmetric" := by decide
  have hsb : ¬ ("symmetric" : String) = "both" := by decide
  refine ⟨?_, ?_, ?_, ?_, ?_⟩
  · simp [extrudeHeightOffset, hnb, hns]
  · simp [extrudeHeightOffset, mul_comm]
  · simp [extrudeHeightOffset, hsb]
  · norm_num [extrudeHeightOffset, prismAxisSpan, hsb]
  · norm_num [extrudeHeightOffset, prismAxisSpan]

/-- Witness for `c10_computingCleanup` at a concrete empty starting state. -/
theorem c10_computingCleanup_witness :
    ((compute trivEnv [] 1 { cache := fun _ => none, computing := [] } "a").2).computing
      = ({ cache := fun _ => none, computing := [] } : EngineState).computing
    ∧ (compute trivEnv [] 1
        (compute trivEnv [] 1 { cache := fun _ => none, computing := [] } "a").2 "a").1
        ≠ .error "Already computing this node" :=
  c10_computingCleanup trivEnv [] 1 0 { cache := fun _ => none, computing := [] } "a"
    (by decide)

/-! ## Dependency invalidation (C4) -/

/-- A cache transformation that only ever leaves an entry alone or sets its
dirty flag. -/
def DirtyMono (c c2 : NodeId → Option ComputedGeometry) : Prop :=
  ∀ x, c2 x = c x ∨ c2 x = (c x).map (fun g => { g with dirty := true })

theorem dirtyMono_refl (c : NodeId → Option ComputedGeometry) : DirtyMono c c :=
  fun _ => Or.inl rfl

theorem dirtyMono_trans {c1 c2 c3 : NodeId → Option ComputedGeometry}
    (h1 : DirtyMono c1 c2) (h2 : DirtyMono c2 c3) : DirtyMono c1 c3 := by
  intro x
  rcases h2 x with h2a | h2b
  · rcases h1 x with h1a | h1b
    · exact Or.inl (h2a.trans h1a)
    · exact Or.inr (h2a.trans h1b)
  · rcases h1 x with h1a | h1b
    · exact Or.inr (h2b.trans (by rw [h1a]))
    · right
      rw [h2b, h1b, Option.map_map]
      rfl

theorem cacheMarkDirty_mono (c : NodeId → Option ComputedGeometry) (nodeId : NodeId) :
    DirtyMono c (cacheMarkDirty c nodeId) := by
  intro x
  unfold cacheMarkDirty
  by_cases hx : x = nodeId
  · subst hx
    right
    simp
  · left
    simp [hx]

/-- The entry of `x` (when present) is dirty. -/
def DirtyAt (c : NodeId → Option ComputedGeometry) (x : NodeId) : Prop :=
  ∀ g, c x = some g → g.dirty = true

theorem dirtyAt_of_mono {c c2 : NodeId → Option ComputedGeometry}
    (h : DirtyMono c c2) {x : NodeId} (hd : DirtyAt c x) : DirtyAt c2 x := by
  intro g hg
  rcases h x with he | hm
  · exact hd g (he.symm.trans hg)
  · have hmg : (c x).map (fun g2 => { g2 with dirty := true }) = some g :=
      hm.symm.trans hg
    obtain ⟨g0, hg0, hfg⟩ := Option.map_eq_some'.mp hmg
    rw [← hfg]

theorem cacheMarkDirty_dirtyAt (c : NodeId → Option ComputedGeometry) (x : NodeId) :
    DirtyAt (cacheMarkDirty c x) x := by
  intro g hg
  unfold cacheMarkDirty at hg
  rw [if_pos rfl] at hg
  obtain ⟨g0, hg0, hfg⟩ := Option.map_eq_some'.mp hg
  rw [← hfg]

theorem foldl_dirtyMono {α : Type}
    (step : (NodeId → Option ComputedGeometry) → α → (NodeId → Option ComputedGeometry))
    (hstep : ∀ acc p, DirtyMono acc (step acc p)) :
    ∀ (l : List α) (acc), DirtyMono acc (l.foldl step acc) := by
  intro l
  induction l with
  | nil => intro acc; exact dirtyMono_refl acc
  | cons p rest ih =>
    intro acc
    exact dirtyMono_trans (hstep acc p) (ih (step acc p))

theorem markDirtyWithDependents_mono (nodes : List (NodeId × CADNode)) :
    ∀ (fuel : Nat) (c : NodeId → Option ComputedGeometry) (nodeId : NodeId),
      DirtyMono c (markDirtyWithDependents nodes fuel c nodeId) := by
  intro fuel
  induction fuel with
  | zero => intro c nodeId; exact dirtyMono_refl c
  | succ f ih =>
    intro c nodeId
    unfold markDirtyWithDependents
    refine dirtyMono_trans (cacheMarkDirty_mono c nodeId) ?_
    refine foldl_dirtyMono _ ?_ nodes (cacheMarkDirty c nodeId)
    intro acc p
    by_cases hr : refersTo p.2 nodeId = true
    · rw [if_pos hr]
      exact ih acc p.1
    · rw [if_neg hr]
      exact dirtyMono_refl acc

theorem markDirtyWithDependents_self (nodes : List (NodeId × CADNode)) (fuel : Nat)
    (c : NodeId → Option ComputedGeometry) (x : NodeId) :
    DirtyAt (markDirtyWithDependents nodes (fuel + 1) c x) x := by
  unfold markDirtyWithDependents
  refine dirtyAt_of_mono ?_ (cacheMarkDirty_dirtyAt c x)
  refine foldl_dirtyMono _ ?_ nodes (cacheMarkDirty c x)
  intro acc p
  by_cases hr : refersTo p.2 x = true
  · rw [if_pos hr]
    exact markDirtyWithDependents_mono nodes fuel acc p.1
  · rw [if_neg hr]
    exact dirtyMono_refl acc

theorem foldl_dirtyAt_of_mem {α : Type}
    (step : (NodeId → Option ComputedGeometry) → α → (NodeId → Option ComputedGeometry))
    (hstep : ∀ acc p, DirtyMono acc (step acc p))
    {a : α} {z : NodeId}
    (ha : ∀ acc, DirtyAt (step acc a) z) :
    ∀ (l : List α), a ∈ l → ∀ acc, DirtyAt (l.foldl step acc) z := by
  intro l
  induction l with
  | nil => intro hmem; cases hmem
  | cons b rest ih =>
    intro hmem acc
    rcases List.mem_cons.mp hmem with hab | hmem2
    · subst hab
      exact dirtyAt_of_mono (foldl_dirtyMono step hstep rest (step acc a)) (ha acc)
    · exact ih hmem2 (step acc b)

/-- `z` transitively references `x` in `n` steps through exactly the
reference kinds the invalidator walks: `n = 0` means `z = x`; a step
interposes a node of the document that directly references the current
head. -/
inductive TransRef (nodes : List (NodeId × CADNode)) : Nat → NodeId → NodeId → Prop
  | refl (x : NodeId) : TransRef nodes 0 x x
  | step {x w z : NodeId} {node : CADNode} {n : Nat} :
      (w, node) ∈ nodes → refersTo node x = true →
      TransRef nodes n w z → TransRef nodes (n + 1) x z

/-- C4: invalidating node `x` marks `x`'s own cache entry dirty (the `n = 0`
case) and the entry of every node that transitively references `x` through
boolean operand membership or extrude/revolve sketch-id references, for any
recursion depth exceeding the reference-chain length.  (The fuel is a model
artifact: the source recursion is unbounded and terminates because the
claim assumes an acyclic graph.) -/
theorem c4_invalidationReach (nodes : List (NodeId × CADNode)) {n : Nat}
    {x z : NodeId} (href : TransRef nodes n x z) (fuel : Nat)
    (c : NodeId → Option ComputedGeometry) :
    n < fuel →
      ∀ g, markDirtyWithDependents nodes fuel c x z = some g → g.dirty = true := by
  induction href generalizing fuel c with
  | refl y =>
    intro hfuel
    cases fuel with
    | zero => exact absurd hfuel (lt_irrefl 0)
    | succ f => exact markDirtyWithDependents_self nodes f c y
  | @step x2 w z2 node2 n2 hmem hrefs htrans ih =>
    intro hfuel
    cases fuel with
    | zero => exact absurd hfuel (Nat.not_lt_zero _)
    | succ f =>
      unfold markDirtyWithDependents
      refine foldl_dirtyAt_of_mem _ ?_ ?_ nodes hmem (cacheMarkDirty c x2)
      · intro acc p
        by_cases hr : refersTo p.2 x2 = true
        · rw [if_pos hr]
          exact markDirtyWithDependents_mono nodes f acc p.1
        · rw [if_neg hr]
          exact dirtyMono_refl acc
      · intro acc
        dsimp only
        rw [if_pos hrefs]
        exact ih f acc (by omega)

/-- A cache entry that is present and clean. -/
def cleanEntry : ComputedGeometry :=
  { manifold := none, threeGeometry := none, meshData := none,
    topology := none, bounds := none, dirty := false, error := none }

/-- A one-extrude document: node `e` extrudes sketch `s`. -/
def extrudeNodes : List (NodeId × CADNode) :=
  [("e", .extrude "s" 10 "normal" "new" none)]

/-- A cache with clean entries for both the sketch and the extrude node. -/
def twoCleanCache : NodeId → Option ComputedGeometry :=
  fun x => if x = "s" ∨ x = "e" then some cleanEntry else none

/-- Witness for `c4_invalidationReach`: invalidating the sketch marks the
dependent extrude node's entry dirty. -/
theorem c4_invalidationReach_witness :
    ∃ g, markDirtyWithDependents extrudeNodes 2 twoCleanCache "s" "e" = some g
      ∧ g.dirty = true := by
  have hchain : TransRef extrudeNodes 1 "s" "e" :=
    TransRef.step (List.Mem.head _) (by decide) (TransRef.refl "e")
  have heval : markDirtyWithDependents extrudeNodes 2 twoCleanCache "s" "e"
      = some { cleanEntry with dirty := true } := by decide
  exact ⟨{ cleanEntry with dirty := true }, heval,
    c4_invalidationReach extrudeNodes hchain 2 twoCleanCache (by decide) _ heval⟩

/-! ## Boolean operand failure (C6) -/

/-- The failure condition of `computeBoolean`'s operand loop, exactly as
tested at line 294: the recursive compute failed, or it succeeded with a
null manifold. -/
def operandFails (recur : ComputeFn) (st : EngineState) (x : NodeId) : Bool :=
  match recur st x with
  | (.error _, _) => true
  | (.ok g, _) => g.manifold.isNone

theorem computeOperands_cons_fail (recur : ComputeFn) (st : EngineState)
    (x : NodeId) (post : List NodeId)
    (hfail : operandFails recur st x = true) :
    computeOperands recur (x :: post) st = (.error x, (recur st x).2) := by
  unfold operandFails at hfail
  unfold computeOperands
  split
  next e st1 heq =>
    rw [heq]
  next g st1 heq =>
    rw [heq] at hfail
    dsimp only at hfail
    have hns : ¬ g.manifold.isSome = true := by
      cases hm : g.manifold with
      | none => simp
      | some s => rw [hm] at hfail; simp at hfail
    rw [if_neg hns, heq]

theorem computeOperands_append_ok (recur : ComputeFn) :
    ∀ (pre rest : List NodeId) (st : EngineState) (gs : List ComputedGeometry)
      (st1 : EngineState),
      computeOperands recur pre st = (.ok gs, st1) →
      computeOperands recur (pre ++ rest) st
        = (match computeOperands recur rest st1 with
           | (.ok gs2, st2) => (.ok (gs ++ gs2), st2)
           | (.error fid, st2) => (.error fid, st2)) := by
  intro pre
  induction pre with
  | nil =>
    intro rest st gs st1 hpre
    unfold computeOperands at hpre
    injection hpre with h1 h2
    injection h1 with h1
    subst h1
    subst h2
    rcases h : computeOperands recur rest st with ⟨r, st2⟩
    cases r with
    | ok gs2 => simp [h]
    | error fid => simp [h]
  | cons p pre2 ih =>
    intro rest st gs st1 hpre
    have hcons : ∀ (qs : List NodeId) (st0 : EngineState),
        computeOperands recur (p :: qs) st0
          = (match recur st0 p with
             | (.error _, stB) => (.error p, stB)
             | (.ok g, stB) =>
               if g.manifold.isSome then
                 match computeOperands recur qs stB with
                 | (.ok gs2, stC) => (.ok (g :: gs2), stC)
                 | (.error fid, stC) => (.error fid, stC)
               else (.error p, stB)) := fun qs st0 => rfl
    rw [hcons pre2 st] at hpre
    rw [List.cons_append, hcons (pre2 ++ rest) st]
    rcases hr : recur st p with ⟨r, stA⟩
    cases r with
    | error e =>
      rw [hr] at hpre
      dsimp only at hpre
      exact absurd hpre (by simp)
    | ok g =>
      rw [hr] at hpre
      dsimp only at hpre
      by_cases hm : g.manifold.isSome
      · rw [if_pos hm] at hpre
        dsimp only
        rw [if_pos hm]
        rcases ho : computeOperands recur pre2 stA with ⟨r2, stB⟩
        rw [ho] at hpre
        cases r2 with
        | error fid =>
          dsimp only at hpre
          exact absurd hpre (by simp)
        | ok gs0 =>
          dsimp only at hpre
          injection hpre with h1 h2
          injection h1 with h1
          subst h2
          subst h1
          rw [ih rest stA gs0 stB ho]
          rcases h3 : computeOperands recur rest stB with ⟨r3, stC⟩
          cases r3 with
          | ok gs2 => simp
          | error fid => simp
      · rw [if_neg hm] at hpre
        exact absurd hpre (by simp)

/-- C6: when `compute` reaches a boolean node whose operand list splits as
`pre ++ x :: post`, every operand of `pre` computes successfully (with a
manifold), and operand `x` is the first to fail — its recursive compute
errors or returns no manifold — then `computeBoolean` aborts at `x` and
produces exactly the empty geometry named after the failing operand id
("Failed to compute operand: x"), performing no boolean fold and leaving
the state as the failing recursive call left it. -/
theorem c6_operandFailure (env : KernelEnv) (nodes : List (NodeId × CADNode))
    (fuel : Nat) (st st1 : EngineState) (op : String) (pre post : List NodeId)
    (x : NodeId) (gs : List ComputedGeometry)
    (hlen : 2 ≤ (pre ++ x :: post).length)
    (hpre : computeOperands (compute env nodes fuel) pre st = (.ok gs, st1))
    (hfail : operandFails (compute env nodes fuel) st1 x = true) :
    computeBoolean env (compute env nodes fuel) st op (pre ++ x :: post)
      = (createEmptyGeometry ("Failed to compute operand: " ++ x),
          (compute env nodes fuel st1 x).2) := by
  unfold computeBoolean
  rw [if_neg (Nat.not_lt.mpr hlen)]
  rw [computeOperands_append_ok (compute env nodes fuel) pre (x :: post) st gs st1 hpre]
  rw [computeOperands_cons_fail (compute env nodes fuel) st1 x post hfail]

/-- The engine state with an empty cache and nothing in progress. -/
def emptyState : EngineState := { cache := fun _ => none, computing := [] }

/-- Witness for `c6_operandFailure`: with no fuel, the first operand "a"
fails immediately, and the boolean aborts naming it. -/
theorem c6_operandFailure_witness :
    computeBoolean trivEnv (compute trivEnv [] 0) emptyState "union" ["a", "c"]
      = (createEmptyGeometry ("Failed to compute operand: " ++ "a"),
          (compute trivEnv [] 0 emptyState "a").2) :=
  c6_operandFailure trivEnv [] 0 emptyState emptyState "union" [] ["c"] "a" []
    (by decide) rfl (by decide)

/-! ## Silent per-profile skips in extrude/revolve (C9) -/

theorem perProfileExtrude_eq_none (env : KernelEnv) (direction : String)
    (distance : ℚ) (p : Profile) :
    perProfileExtrude env direction distance p = none
      ↔ ∃ e, env.extrude p (extrudeHeightOffset direction distance).1 = .error e := by
  simp only [perProfileExtrude]
  cases h : env.extrude p (extrudeHeightOffset direction distance).1 with
  | error e => simp [h]
  | ok s => simp [h]

theorem revolve_toOption_eq_none (env : KernelEnv) (angle : ℚ) (p : Profile) :
    (env.revolve p angle).toOption = none ↔ ∃ e, env.revolve p angle = .error e := by
  cases h : env.revolve p angle with
  | error e => simp [h, Except.toOption]
  | ok s => simp [h, Except.toOption]

/-- C9: failing per-profile kernel operations are silently absorbed rather
than aborting the node.  In order: (1) the extrude profile-result list is
empty exactly when every profile's `extrude` call fails; (2) in that case
(sketch found, at least one profile) the node's result is the
"Extrusion failed" empty geometry; (3) a profile whose `extrude` succeeded
but whose `translate` failed contributes its untranslated solid; (4) a
failed pairwise union is skipped, keeping the accumulator from before that
profile; (5) and (6) are the revolve analogues of (1) and (2) with
"Revolution failed". -/
theorem c9_silentSkips (env : KernelEnv) (nodes : List (NodeId × CADNode))
    (recur : ComputeFn) (st : EngineState) (sketchId : NodeId) (distance : ℚ)
    (direction booleanOp : String) (profiles : List Profile) (p : Profile)
    (s acc r : KManifold) (rest : List KManifold) (e : String) (angle : ℚ) :
    (profiles.filterMap (perProfileExtrude env direction distance) = []
      ↔ ∀ q ∈ profiles, ∃ e2,
          env.extrude q (extrudeHeightOffset direction distance).1 = .error e2)
    ∧ (nodes.lookup sketchId = some (.sketch profiles) → profiles ≠ [] →
        profiles.filterMap (perProfileExtrude env direction distance) = [] →
        computeExtrude env nodes recur st sketchId distance direction booleanOp none
          = (createEmptyGeometry "Extrusion failed", st))
    ∧ (env.extrude p (extrudeHeightOffset direction distance).1 = .ok s →
        (extrudeHeightOffset direction distance).2 ≠ 0 →
        env.translate s (0, 0, (extrudeHeightOffset direction distance).2) = .error e →
        perProfileExtrude env direction distance p = some s)
    ∧ (env.union acc r = .error e →
        unionFold env acc (r :: rest) = unionFold env acc rest)
    ∧ (profiles.filterMap (fun q => (env.revolve q angle).toOption) = []
      ↔ ∀ q ∈ profiles, ∃ e2, env.revolve q angle = .error e2)
    ∧ (nodes.lookup sketchId = some (.sketch profiles) → profiles ≠ [] →
        profiles.filterMap (fun q => (env.revolve q angle).toOption) = [] →
        computeRevolve env nodes st sketchId angle
          = (createEmptyGeometry "Revolution failed", st)) := by
  refine ⟨?_, ?_, ?_, ?_, ?_, ?_⟩
  · rw [List.filterMap_eq_nil_iff]
    constructor
    · intro h q hq
      exact (perProfileExtrude_eq_none env direction distance q).mp (h q hq)
    · intro h q hq
      exact (perProfileExtrude_eq_none env direction distance q).mpr (h q hq)
  · intro hlk hne hfm
    have hie : ¬ profiles.isEmpty = true := by
      cases profiles with
      | nil => exact absurd rfl hne
      | cons a l => simp
    unfold computeExtrude
    rw [hlk]
    dsimp only
    rw [if_neg hie, hfm]
  · intro hok hz hte
    simp only [perProfileExtrude]
    rw [hok]
    dsimp only
    rw [if_pos hz, hte]
  · intro hu
    show (match env.union acc r with
          | .ok u => unionFold env u rest
          | .error _ => unionFold env acc rest) = unionFold env acc rest
    rw [hu]
  · rw [List.filterMap_eq_nil_iff]
    constructor
    · intro h q hq
      exact (revolve_toOption_eq_none env angle q).mp (h q hq)
    · intro h q hq
      exact (revolve_toOption_eq_none env angle q).mpr (h q hq)
  · intro hlk hne hfm
    have hie : ¬ profiles.isEmpty = true := by
      cases profiles with
      | nil => exact absurd rfl hne
      | cons a l => simp
    unfold computeRevolve
    rw [hlk]
    dsimp only
    rw [if_neg hie, hfm]

/-- A one-sketch document with a single profile, for the C9 witness. -/
def sketchNodes : List (NodeId × CADNode) := [("s", .sketch [7])]

/-- Witness for `c9_silentSkips`: under the failing kernel every profile's
extrude fails, so the extrude node yields "Extrusion failed"; and a failing
union keeps the accumulator. -/
theorem c9_silentSkips_witness :
    computeExtrude trivEnv sketchNodes (compute trivEnv sketchNodes 0) emptyState
        "s" 10 "normal" "new" none
      = (createEmptyGeometry "Extrusion failed", emptyState)
    ∧ unionFold trivEnv 3 (4 :: [5]) = unionFold trivEnv 3 [5] := by
  have h := c9_silentSkips trivEnv sketchNodes (compute trivEnv sketchNodes 0)
    emptyState "s" 10 "normal" "new" [7] 7 3 3 4 [5] "kernel unavailable" 360
  exact ⟨h.2.1 (by decide) (by decide) (by decide), h.2.2.2.1 rfl⟩

end CADCore
